import Mathlib

/-!
Verification of the real-time voice session pipeline in
`src/services/fastrtc_service.py`.

The Python module is shallowly embedded below:

* `calculateEnergy` embeds `VoiceActivityDetector._calculate_energy`
  (16-bit little-endian PCM decoding, RMS energy, normalisation by 32768,
  clipping at 1.0).  Python floats are idealised as exact rationals; the
  square root is `ratSqrt`, which is exact on every perfect rational
  square, and every energy computed in this development is over frames of
  one constant sample value, where the root is a perfect square.
* `vadProcess` / `getSilenceDurationMs` embed `VoiceActivityDetector.process`
  and `get_silence_duration_ms`; wall-clock `time.time()` readings become
  explicit `now : ℚ` arguments (seconds).
* `pipelineRun` embeds `FastRTCPipeline.process_audio_stream` with the
  three stage handlers as explicit functions; a raised exception becomes
  an `Except`/`Option` error value, a fully drained async generator
  becomes the list of chunks it yielded.
* `ServiceState`, `createSession`, `getSession`, `endSession` and
  `processAudioChunk` embed `FastRTCService`; the session dict becomes an
  association list with dict update/pop semantics, the fresh uuid of
  `create_session` becomes an explicit `newId` argument.

Total Lean functions model the fact that the corresponding Python paths
do not raise: the one internal exception (`struct.error` on odd-length
frames) is caught by the source and turned into energy `0.0`, which the
embedding returns directly.
-/

attribute [local semireducible] Rat.add Rat.mul Rat.sub Rat.inv

namespace FastRTC

/-- `struct.unpack "<h"`: a 16-bit little-endian unsigned value read as a
signed sample. -/
def toSigned (u : Nat) : Int :=
  if u < 32768 then (u : Int) else (u : Int) - 65536

/-- Decode a byte list as 16-bit little-endian PCM samples (low byte
first), as `struct.unpack` does; a trailing odd byte is never consumed
(the caller rejects odd-length frames before decoding). -/
def decodeSamples : List Nat → List Int
  | b0 :: b1 :: rest => toSigned (b0 + 256 * b1) :: decodeSamples rest
  | _ => []

/-- Fuel-driven integer square root (digit-pair recursion); with fuel
`f` it is the floor square root of every `n < 4 ^ f`. -/
def isqrtAux : Nat → Nat → Nat
  | 0, _ => 0
  | fuel + 1, n =>
    if n < 2 then n
    else
      let r := 2 * isqrtAux fuel (n / 4)
      if (r + 1) * (r + 1) ≤ n then r + 1 else r

/-- Floor integer square root (kernel-reducible). -/
def isqrt (n : Nat) : Nat := isqrtAux n n

/-- Exact rational square root: exact on every perfect rational square
(`ratSqrt ((c : ℚ) ^ 2) = c` for natural `c`), the idealisation of
`x ** 0.5` at the points where this development evaluates it. -/
def ratSqrt (q : ℚ) : ℚ :=
  ((isqrt (q.num.toNat * q.den) : ℚ)) / ((q.den : ℚ))

/-- `VoiceActivityDetector._calculate_energy`: frames shorter than 2 bytes
yield `0.0`; odd-length frames make `struct.unpack` raise, the handler
catches the exception and yields `0.0`; otherwise the RMS energy of the
samples, normalised by 32768 and clipped at 1.0. -/
def calculateEnergy (chunk : List Nat) : ℚ :=
  if chunk.length < 2 then 0
  else if chunk.length % 2 = 1 then 0
  else
    let samples := decodeSamples chunk
    if samples = [] then 0
    else
      let rms : ℚ :=
        ((samples.map (fun s : Int => ((s : ℚ)) ^ 2)).sum) / ((samples.length : ℚ))
      min 1 (ratSqrt rms / 32768)

/-- State of `VoiceActivityDetector`: smoothing window of recent frame
energies, speaking flag, and the wall-clock second at which the current
silence began. -/
structure VADState where
  threshold : ℚ := 3 / 10
  smoothingFrames : Nat := 5
  energyHistory : List ℚ := []
  isSpeaking : Bool := false
  silenceStart : Option ℚ := none
  deriving DecidableEq, Repr

/-- `VoiceActivityDetector.process`: push the frame energy into the
window (dropping the oldest entry once the window is full), average,
compare with the threshold, and track the speaking→silence transition.
Returns the updated detector, the speech flag and the averaged energy. -/
def vadProcess (st : VADState) (now : ℚ) (chunk : List Nat) :
    VADState × Bool × ℚ :=
  let energy := calculateEnergy chunk
  let grown := st.energyHistory ++ [energy]
  let hist := if st.smoothingFrames < grown.length then grown.tail else grown
  let avg := hist.sum / ((hist.length : ℚ))
  let speaking : Bool := decide (st.threshold < avg)
  let silence : Option ℚ :=
    if st.isSpeaking && !speaking then some now
    else if speaking then none
    else st.silenceStart
  ({ st with energyHistory := hist, isSpeaking := speaking,
             silenceStart := silence },
   speaking, avg)

/-- `VoiceActivityDetector.get_silence_duration_ms`. -/
def getSilenceDurationMs (st : VADState) (now : ℚ) : ℚ :=
  match st.silenceStart with
  | none => 0
  | some t => (now - t) * 1000

/-- `StreamState`: the per-session state machine values. -/
inductive StreamState where
  | idle
  | listening
  | processing
  | speaking
  | error
  deriving DecidableEq, Repr

/-- The `metrics` dict of a `VoiceSession`. -/
structure Metrics where
  totalAudioBytes : Nat := 0
  sttCalls : Nat := 0
  llmCalls : Nat := 0
  ttsCalls : Nat := 0
  avgLatencyMs : ℚ := 0
  totalLatencyMs : ℚ := 0
  deriving DecidableEq, Repr

/-- The `config` dict of a `VoiceSession` (defaults from the source). -/
structure SessionConfig where
  vadThreshold : ℚ := 3 / 10
  silenceTimeoutMs : ℚ := 1500
  maxAudioDurationMs : ℚ := 30000
  language : String := "en"
  voiceId : String := "default"
  deriving DecidableEq, Repr

/-- `VoiceSession`: per-conversation mutable state.  Timestamps are
wall-clock seconds passed in explicitly; the audio buffer is the byte
list accumulated so far. -/
structure VoiceSession where
  sessionId : String
  userId : String
  state : StreamState := .idle
  createdAt : ℚ := 0
  lastActivity : ℚ := 0
  audioBuffer : List Nat := []
  transcriptBuffer : String := ""
  metrics : Metrics := {}
  config : SessionConfig := {}
  deriving DecidableEq, Repr

/-- The three pluggable stage handlers of `FastRTCPipeline`, with a
raised exception embedded as an error value of type `E`.  The TTS
handler is an async generator: its embedding returns the chunks it
yields and, when it raises mid-stream, the error raised after them.
The LLM handler receives the transcript and the session id and yields
the response text (`llm_response.get("response", "")`). -/
structure Handlers (E : Type) where
  stt : List Nat → Except E String
  llm : String → String → Except E String
  tts : String → List (List Nat) × Option E

/-- Performance counters kept on the `FastRTCPipeline` object itself. -/
structure PipelineStats where
  totalRequests : Nat := 0
  totalLatency : ℚ := 0
  deriving DecidableEq, Repr

/-- Python `str.isspace` characters relevant to `str.strip`. -/
def isPySpace (c : Char) : Bool :=
  c = ' ' || c = '\t' || c = '\n' || c = '\x0d' || c = '\x0b' || c = '\x0c'

/-- `not transcript or not transcript.strip()`: the transcript is empty
or consists only of whitespace. -/
def isBlank (s : String) : Bool :=
  s.toList.all isPySpace

/-- `FastRTCPipeline.process_audio_stream`, the full drain of the async
generator for one utterance.  Stages run strictly in sequence; a stage
error sets the session state to `ERROR` and propagates after the chunks
already yielded; on success the latency metrics are updated with the
explicit `elapsedMs` wall-clock duration of the utterance.  Returns the
mutated session, the mutated pipeline counters, the yielded chunks, and
the propagated error (if any). -/
def pipelineRun {E : Type} (h : Handlers E) (elapsedMs : ℚ)
    (audioData : List Nat) (sess : VoiceSession) (stats : PipelineStats) :
    VoiceSession × PipelineStats × List (List Nat) × Option E :=
  match h.stt audioData with
  | .error e => ({ sess with state := .error }, stats, [], some e)
  | .ok transcript =>
    if isBlank transcript then (sess, stats, [], none)
    else
      let sess1 := { sess with
        transcriptBuffer := transcript,
        metrics := { sess.metrics with sttCalls := sess.metrics.sttCalls + 1 } }
      match h.llm transcript sess.sessionId with
      | .error e => ({ sess1 with state := .error }, stats, [], some e)
      | .ok responseText =>
        let sess2 := { sess1 with
          metrics := { sess1.metrics with llmCalls := sess1.metrics.llmCalls + 1 } }
        match h.tts responseText with
        | (chunks, some e) => ({ sess2 with state := .error }, stats, chunks, some e)
        | (chunks, none) =>
          let m := sess2.metrics
          let m1 := { m with
            ttsCalls := m.ttsCalls + 1,
            totalLatencyMs := m.totalLatencyMs + elapsedMs }
          let m2 := { m1 with
            avgLatencyMs := m1.totalLatencyMs / ((m1.sttCalls : ℚ)) }
          ({ sess2 with metrics := m2 },
           { stats with
             totalRequests := stats.totalRequests + 1,
             totalLatency := stats.totalLatency + elapsedMs },
           chunks, none)

/-- The `config` dict of `FastRTCService`. -/
structure ServiceConfig where
  maxSessions : Nat := 100
  sessionTimeoutSec : ℚ := 300
  audioSampleRate : Nat := 16000
  audioChannels : Nat := 1
  audioChunkSize : Nat := 4096
  deriving DecidableEq, Repr

/-- `FastRTCService` state: the `session_id → VoiceSession` dict (as an
association list with dict update semantics), the single
`VoiceActivityDetector` created in `FastRTCService.__init__`, the
pipeline counters, and the service config. -/
structure ServiceState where
  sessions : List (String × VoiceSession) := []
  vad : VADState := {}
  pipelineStats : PipelineStats := {}
  config : ServiceConfig := {}
  deriving DecidableEq, Repr

/-- Dict assignment `self.sessions[sid] = sess`: replace the binding if
the key is present, otherwise append it. -/
def setSession : List (String × VoiceSession) → String → VoiceSession →
    List (String × VoiceSession)
  | [], sid, v => [(sid, v)]
  | (k, w) :: rest, sid, v =>
    if k = sid then (sid, v) :: rest else (k, w) :: setSession rest sid v

/-- `FastRTCService.get_session`: dict lookup, `none` when absent. -/
def getSession (s : ServiceState) (sid : String) : Option VoiceSession :=
  (s.sessions.find? (fun p => p.1 = sid)).map Prod.snd

/-- `FastRTCService.create_session`: the fresh uuid-based id is the
explicit `newId` argument, `now` the wall clock at creation.  The new
session starts in the default state and config and is stored
unconditionally; nothing in the source consults `max_sessions`. -/
def createSession (s : ServiceState) (newId : String) (now : ℚ)
    (userId : String) : ServiceState × VoiceSession :=
  let sess : VoiceSession :=
    { sessionId := newId, userId := userId, createdAt := now, lastActivity := now }
  ({ s with sessions := setSession s.sessions newId sess }, sess)

/-- `FastRTCService.end_session`: pop the session if present and report
whether it was found. -/
def endSession (s : ServiceState) (sid : String) : ServiceState × Bool :=
  if (s.sessions.find? (fun p => p.1 = sid)).isSome then
    ({ s with sessions := s.sessions.filter (fun p => ¬ (p.1 = sid)) }, true)
  else (s, false)

/-- `FastRTCService.process_audio_chunk`, one inbound frame, with the
generator fully drained.  `now` is the wall clock at frame arrival and
`elapsedMs` the duration measured by the pipeline for a dispatched
utterance.  Returns the new service state, the outbound chunks, the
propagated error, and — for observability of utterance dispatch — the
audio passed to `pipelineRun` when the silence timeout fired. -/
def processAudioChunk {E : Type} (h : Handlers E) (elapsedMs : ℚ)
    (s : ServiceState) (sid : String) (now : ℚ) (chunk : List Nat) :
    ServiceState × List (List Nat) × Option E × Option (List Nat) :=
  match getSession s sid with
  | none => (s, [], none, none)
  | some sess0 =>
    let sess := { sess0 with
      lastActivity := now,
      metrics := { sess0.metrics with
        totalAudioBytes := sess0.metrics.totalAudioBytes + chunk.length } }
    let v := vadProcess s.vad now chunk
    let s1 := { s with vad := v.1 }
    if v.2.1 then
      let sessL := { sess with
        audioBuffer := sess.audioBuffer ++ chunk, state := .listening }
      ({ s1 with sessions := setSession s1.sessions sid sessL }, [], none, none)
    else
      if getSilenceDurationMs v.1 now ≥ sess.config.silenceTimeoutMs ∧
          sess.audioBuffer ≠ [] then
        let audioToProcess := sess.audioBuffer
        let sessP := { sess with state := .processing, audioBuffer := [] }
        let r := pipelineRun h elapsedMs audioToProcess sessP s1.pipelineStats
        let sessF := if r.2.2.2.isSome then r.1 else { r.1 with state := .idle }
        ({ s1 with sessions := setSession s1.sessions sid sessF,
                   pipelineStats := r.2.1 },
         r.2.2.1, r.2.2.2, some audioToProcess)
      else
        ({ s1 with sessions := setSession s1.sessions sid sess }, [], none, none)

/-- Drive a sequence of timestamped frames through
`process_audio_chunk` for one session, collecting every utterance
dispatched to the pipeline along the way. -/
def runFrames {E : Type} (h : Handlers E) (sid : String) :
    ServiceState → List (ℚ × List Nat) → ServiceState × List (List Nat)
  | s, [] => (s, [])
  | s, (t, f) :: rest =>
    let r := processAudioChunk h 0 s sid t f
    let r2 := runFrames h sid r.1 rest
    (r2.1, r.2.2.2.toList ++ r2.2)

/-- A frame of `n` sample pairs, every sample the two bytes `b0 b1`
(little-endian). -/
def pairList (b0 b1 : Nat) : Nat → List Nat
  | 0 => []
  | n + 1 => b0 :: b1 :: pairList b0 b1 n

/-- The 4096-byte speech frame of the utterance scenarios: constant
sample 12000, energy `12000 / 32768 = 375 / 1024`, above the default
VAD threshold `0.3` but low enough that one silent frame already pulls
the smoothed average below it. -/
def speechFrame : List Nat := pairList 224 46 2048

/-- A 4096-byte frame of zero samples. -/
def zeroFrame : List Nat := pairList 0 0 2048

/-- The audio accumulated by `k` copies of `speechFrame`. -/
def bufN (k : Nat) : List Nat := (List.replicate k speechFrame).flatten

/-- A fresh service holding one fresh session `"s"` for user `"u"`,
created at time `0`. -/
def svcInit : ServiceState := (createSession {} "s" 0 "u").1

/-- The session `"s"` after `k` speech frames fed at time `0`. -/
def sessAfter (k : Nat) : VoiceSession :=
  { sessionId := "s", userId := "u",
    state := if k = 0 then .idle else .listening,
    createdAt := 0, lastActivity := 0,
    audioBuffer := bufN k,
    metrics := { totalAudioBytes := 4096 * k } }

/-- The service VAD after `k` copies of `speechFrame`. -/
def vadAfter (k : Nat) : VADState :=
  { energyHistory := List.replicate (min k 5) (375 / 1024),
    isSpeaking := k != 0,
    silenceStart := none }

/-- The whole service after `k` speech frames into session `"s"`. -/
def svcAfter (k : Nat) : ServiceState :=
  { sessions := [("s", sessAfter k)], vad := vadAfter k }

/-- The service VAD one zero frame after 50 speech frames: the window
still holds four speech energies, the average `75/256` has dropped just
below the `0.3` threshold, and the silence clock starts. -/
def vadSilentA : VADState :=
  { energyHistory := [375 / 1024, 375 / 1024, 375 / 1024, 375 / 1024, 0],
    isSpeaking := false,
    silenceStart := some 50 }

/-- Session `"s"` one zero frame (at time 50) after 50 speech frames:
nothing buffered, silence clock running. -/
def sessSilentA : VoiceSession :=
  { sessAfter 50 with lastActivity := 50, metrics := { totalAudioBytes := 4096 * 51 } }

/-- The whole service one zero frame after 50 speech frames. -/
def svcSilentA : ServiceState :=
  { sessions := [("s", sessSilentA)], vad := vadSilentA }

/-- The frame feed of the 50-frame utterance scenario: 50 speech frames,
then zero frames until 1600 ms of silence have elapsed. -/
def utteranceFeed : List (ℚ × List Nat) :=
  List.replicate 50 ((0 : ℚ), speechFrame) ++
    [((50 : ℚ), zeroFrame), ((258 / 5 : ℚ), zeroFrame)]

/-- Stage handlers that always succeed, used where a scenario needs some
concrete handlers whose behaviour is irrelevant. -/
def trivHandlers : Handlers Unit :=
  { stt := fun _ => .ok "", llm := fun _ _ => .ok "", tts := fun _ => ([], none) }

/-- A 2-byte frame of one sample of value 32000 (energy `125/128`). -/
def loudFrame2 : List Nat := [0, 125]

/-- A 2-byte frame of one zero sample. -/
def silentFrame2 : List Nat := [0, 0]

/-- A service holding two fresh sessions, as in the cross-session VAD
scenario. -/
def svcTwo : ServiceState :=
  (createSession (createSession {} "s1" 0 "u1").1 "s2" 0 "u2").1

/-- `n` distinct live sessions keyed by decimal indices. -/
def manySessions : Nat → List (String × VoiceSession)
  | 0 => []
  | n + 1 => (Nat.repr n, { sessionId := Nat.repr n, userId := "u" }) :: manySessions n

/-- A service whose registry already holds `max_sessions` live
sessions. -/
def fullService : ServiceState := { sessions := manySessions 100 }

/-- A bare session used by concrete scenarios. -/
def demoSess : VoiceSession := { sessionId := "s", userId := "u" }

/-- Handlers whose STT stage yields a whitespace-only transcript and
whose later stages would be observable if they ran. -/
def blankSttHandlers : Handlers Unit :=
  { stt := fun _ => .ok " ", llm := fun _ _ => .error (), tts := fun _ => ([[1]], some ()) }

/-- Handlers whose LLM stage raises. -/
def llmFailHandlers : Handlers Unit :=
  { stt := fun _ => .ok "hello", llm := fun _ _ => .error (), tts := fun _ => ([], none) }

/-- Handlers for which every stage succeeds. -/
def okHandlers : Handlers Unit :=
  { stt := fun _ => .ok "hello", llm := fun _ _ => .ok "resp", tts := fun _ => ([[9]], none) }

/-- First utterance of the latency scenario: full success, 100 ms. -/
def latRun1 : VoiceSession × PipelineStats × List (List Nat) × Option Unit :=
  pipelineRun okHandlers 100 [1] demoSess {}

/-- Second utterance: STT succeeds, the LLM stage raises, 100 ms. -/
def latRun2 : VoiceSession × PipelineStats × List (List Nat) × Option Unit :=
  pipelineRun llmFailHandlers 100 [1] latRun1.1 latRun1.2.1

/-- Third utterance: full success again, 100 ms. -/
def latRun3 : VoiceSession × PipelineStats × List (List Nat) × Option Unit :=
  pipelineRun okHandlers 100 [1] latRun2.1 latRun2.2.1

/-- A service state in which session `"s"` has a non-empty buffer and
the shared VAD has been silent since time `0`, so that any frame that
classifies as silence arriving at `now ≥ 1.5` dispatches the buffer. -/
def svcReady : ServiceState :=
  { sessions := [("s", { demoSess with audioBuffer := [1, 2] })],
    vad := { silenceStart := some 0 } }

end FastRTC

namespace FastRTC

theorem isqrtAux_spec (fuel : Nat) : ∀ n : Nat, n < 4 ^ fuel →
    isqrtAux fuel n * isqrtAux fuel n ≤ n ∧
      n < (isqrtAux fuel n + 1) * (isqrtAux fuel n + 1) := by
  induction fuel with
  | zero =>
    intro n hn
    simp only [pow_zero, Nat.lt_one_iff] at hn
    subst hn
    simp [isqrtAux]
  | succ fuel ih =>
    intro n hn
    rw [isqrtAux]
    by_cases h2 : n < 2
    · simp only [if_pos h2]
      interval_cases n <;> simp
    · simp only [if_neg h2]
      have hdiv : n / 4 < 4 ^ fuel := by
        rw [Nat.div_lt_iff_lt_mul (by norm_num)]
        calc n < 4 ^ (fuel + 1) := hn
          _ = 4 ^ fuel * 4 := by ring
      obtain ⟨hlo, hhi⟩ := ih (n / 4) hdiv
      set s := isqrtAux fuel (n / 4) with hs
      have hquot : 4 * (n / 4) ≤ n ∧ n < 4 * (n / 4) + 4 := by omega
      have hlow : 2 * s * (2 * s) ≤ n := by
        have h1 : 2 * s * (2 * s) = 4 * (s * s) := by ring
        have h2' : 4 * (s * s) ≤ 4 * (n / 4) := Nat.mul_le_mul_left 4 hlo
        omega
      have hup : n < (2 * s + 2) * (2 * s + 2) := by
        have h1 : (2 * s + 2) * (2 * s + 2) = 4 * ((s + 1) * (s + 1)) := by ring
        have h2' : 4 * (n / 4 + 1) ≤ 4 * ((s + 1) * (s + 1)) :=
          Nat.mul_le_mul_left 4 (Nat.succ_le_of_lt hhi)
        omega
      have hnorm : (2 * s + 1 + 1) * (2 * s + 1 + 1) = (2 * s + 2) * (2 * s + 2) := by
        ring
      by_cases hmid : (2 * s + 1) * (2 * s + 1) ≤ n
      · simp only [if_pos hmid]
        exact ⟨hmid, by omega⟩
      · simp only [if_neg hmid]
        exact ⟨hlow, by omega⟩

theorem isqrt_mul_self (c : Nat) : isqrt (c * c) = c := by
  have hfuel : c * c < 4 ^ (c * c) := by
    calc c * c < 2 ^ (c * c) := Nat.lt_two_pow (c * c)
      _ ≤ 4 ^ (c * c) := Nat.pow_le_pow_left (by norm_num) _
  obtain ⟨h1, h2⟩ := isqrtAux_spec (c * c) (c * c) hfuel
  rw [isqrt]
  set r := isqrtAux (c * c) (c * c) with hr
  have hle : r ≤ c := by
    by_contra hgt
    push_neg at hgt
    have : c * c < r * r := Nat.mul_lt_mul_of_lt_of_le hgt (Nat.le_of_lt hgt) (by omega)
    omega
  have hge : c ≤ r := by
    by_contra hgt
    push_neg at hgt
    have : (r + 1) * (r + 1) ≤ c * c :=
      Nat.mul_le_mul (Nat.succ_le_of_lt hgt) (Nat.succ_le_of_lt hgt)
    omega
  omega

theorem ratSqrt_natSq (c : Nat) : ratSqrt (((c : ℚ)) ^ 2) = c := by
  have hcast : ((c : ℚ)) ^ 2 = ((c * c : ℕ) : ℚ) := by push_cast; ring
  rw [hcast, ratSqrt, Rat.num_natCast, Rat.den_natCast]
  have htn : ((((c * c : ℕ)) : ℤ)).toNat = c * c := by omega
  simp only [mul_one, htn, isqrt_mul_self, Nat.cast_one, div_one]

theorem pairList_length (b0 b1 n : Nat) : (pairList b0 b1 n).length = 2 * n := by
  induction n with
  | zero => rfl
  | succ n ih => simp only [pairList, List.length_cons, ih]; omega

theorem decode_pairList (b0 b1 n : Nat) :
    decodeSamples (pairList b0 b1 n) =
      List.replicate n (toSigned (b0 + 256 * b1)) := by
  induction n with
  | zero => rfl
  | succ n ih => simp [pairList, decodeSamples, ih, List.replicate_succ]

theorem calculateEnergy_pairList (b0 b1 n : Nat) (hn : n ≠ 0)
    (hlt : b0 + 256 * b1 < 32768) :
    calculateEnergy (pairList b0 b1 n) =
      min 1 ((((b0 + 256 * b1 : ℕ) : ℚ)) / 32768) := by
  have hlen := pairList_length b0 b1 n
  rw [calculateEnergy, if_neg (by omega), if_neg (by omega), decode_pairList,
    if_neg (by simp [hn])]
  rw [List.map_replicate, List.sum_replicate, List.length_replicate, nsmul_eq_mul,
    mul_div_cancel_left₀ _ (Nat.cast_ne_zero.mpr hn : ((n : ℚ)) ≠ 0)]
  have hc : ((toSigned (b0 + 256 * b1) : ℚ)) = (((b0 + 256 * b1 : ℕ) : ℚ)) := by
    rw [toSigned, if_pos hlt]; push_cast; ring
  rw [hc]
  simp only [ratSqrt_natSq]

theorem calculateEnergy_speechFrame : calculateEnergy speechFrame = 375 / 1024 := by
  rw [speechFrame, calculateEnergy_pairList 224 46 2048 (by omega) (by omega)]
  decide

theorem calculateEnergy_zeroFrame : calculateEnergy zeroFrame = 0 := by
  rw [zeroFrame, calculateEnergy_pairList 0 0 2048 (by omega) (by omega)]
  decide

theorem speechFrame_length : speechFrame.length = 4096 := by
  rw [speechFrame, pairList_length]

theorem zeroFrame_length : zeroFrame.length = 4096 := by
  rw [zeroFrame, pairList_length]

theorem bufN_succ (k : Nat) : bufN (k + 1) = bufN k ++ speechFrame := by
  rw [bufN, bufN, List.replicate_succ', List.flatten_append]
  simp

theorem bufN_length (k : Nat) : (bufN k).length = 4096 * k := by
  induction k with
  | zero => rfl
  | succ k ih => rw [bufN_succ, List.length_append, ih, speechFrame_length]; ring

theorem bufN_ne_nil (k : Nat) (hk : k ≠ 0) : bufN k ≠ [] := by
  intro h
  have := bufN_length k
  rw [h] at this
  simp at this
  omega

theorem avg_replicate (m : Nat) (hm : m ≠ 0) (a : ℚ) :
    (List.replicate m a).sum / (((List.replicate m a).length : ℚ)) = a := by
  rw [List.sum_replicate, List.length_replicate, nsmul_eq_mul,
    mul_div_cancel_left₀ _ (Nat.cast_ne_zero.mpr hm : ((m : ℚ)) ≠ 0)]

theorem window_slide (k : Nat) (a : ℚ) :
    (if 5 < (List.replicate (min k 5) a ++ [a]).length
      then (List.replicate (min k 5) a ++ [a]).tail
      else List.replicate (min k 5) a ++ [a]) =
      List.replicate (min (k + 1) 5) a := by
  rcases Nat.lt_or_ge k 5 with hk | hk
  · rw [if_neg (by simp; omega)]
    rw [← List.replicate_succ' (min k 5) a]
    congr 1
    omega
  · have hmin : min k 5 = 5 := by omega
    have hmin' : min (k + 1) 5 = 5 := by omega
    rw [hmin, hmin', if_pos (by simp)]
    simp [List.replicate]

theorem vadProcess_speech_step (k : Nat) (now : ℚ) :
    vadProcess (vadAfter k) now speechFrame =
      (vadAfter (k + 1), true, 375 / 1024) := by
  rw [vadProcess, calculateEnergy_speechFrame]
  simp only [vadAfter, window_slide]
  have havg :
      (List.replicate (min (k + 1) 5) ((375 : ℚ) / 1024)).sum /
        (((List.replicate (min (k + 1) 5) ((375 : ℚ) / 1024)).length : ℚ)) =
        375 / 1024 :=
    avg_replicate _ (by omega) _
  rw [havg]
  have hsp : decide (((3 : ℚ) / 10) < 375 / 1024) = true := by decide
  simp [hsp]

theorem vadProcess_first_zero (now : ℚ) :
    vadProcess (vadAfter 50) now zeroFrame =
      ({ vadSilentA with silenceStart := some now }, false, 75 / 256) := by
  rw [vadProcess, calculateEnergy_zeroFrame]
  simp only [vadAfter, vadSilentA]
  norm_num [List.replicate, List.sum_cons]

theorem vadProcess_second_zero (now : ℚ) :
    vadProcess vadSilentA now zeroFrame =
      ({ energyHistory := [375 / 1024, 375 / 1024, 375 / 1024, 0, 0],
         isSpeaking := false,
         silenceStart := some 50 }, false, 225 / 1024) := by
  rw [vadProcess, calculateEnergy_zeroFrame]
  simp only [vadSilentA]
  norm_num [List.sum_cons]

theorem find?_setSession (l : List (String × VoiceSession)) (sid : String)
    (v : VoiceSession) :
    (setSession l sid v).find? (fun p => p.1 = sid) = some (sid, v) := by
  induction l with
  | nil => simp [setSession]
  | cons p rest ih =>
    by_cases hk : p.1 = sid
    · rw [setSession, if_pos hk]
      simp
    · rw [setSession, if_neg hk]
      rw [List.find?_cons_of_neg _ (by simp [hk])]
      exact ih

theorem getSession_setSession (l : List (String × VoiceSession))
    (vd : VADState) (ps : PipelineStats) (cfg : ServiceConfig)
    (sid : String) (v : VoiceSession) :
    getSession ⟨setSession l sid v, vd, ps, cfg⟩ sid = some v := by
  rw [getSession]
  simp [find?_setSession]

theorem speech_step {E : Type} (h : Handlers E) (k : Nat) :
    processAudioChunk h 0 (svcAfter k) "s" 0 speechFrame =
      (svcAfter (k + 1), [], none, none) := by
  rw [processAudioChunk]
  have hget : getSession (svcAfter k) "s" = some (sessAfter k) := by
    simp [getSession, svcAfter, List.find?]
  rw [hget]
  simp only [svcAfter, vadProcess_speech_step]
  simp [setSession, sessAfter, bufN_succ, speechFrame_length, Nat.mul_succ]

theorem runFrames_nil {E : Type} (h : Handlers E) (sid : String) (s : ServiceState) :
    runFrames h sid s [] = (s, []) := rfl

theorem runFrames_cons {E : Type} (h : Handlers E) (sid : String) (s : ServiceState)
    (t : ℚ) (f : List Nat) (rest : List (ℚ × List Nat)) :
    runFrames h sid s ((t, f) :: rest) =
      ((runFrames h sid (processAudioChunk h 0 s sid t f).1 rest).1,
        (processAudioChunk h 0 s sid t f).2.2.2.toList ++
          (runFrames h sid (processAudioChunk h 0 s sid t f).1 rest).2) := rfl

theorem runFrames_append {E : Type} (h : Handlers E) (sid : String)
    (l1 l2 : List (ℚ × List Nat)) : ∀ s : ServiceState,
    runFrames h sid s (l1 ++ l2) =
      ((runFrames h sid (runFrames h sid s l1).1 l2).1,
        (runFrames h sid s l1).2 ++ (runFrames h sid (runFrames h sid s l1).1 l2).2) := by
  induction l1 with
  | nil => intro s; simp [runFrames_nil]
  | cons p rest ih =>
    intro s
    obtain ⟨t, f⟩ := p
    rw [List.cons_append, runFrames_cons, ih]
    simp [runFrames_cons, List.append_assoc]

theorem runFrames_speech {E : Type} (h : Handlers E) (k : Nat) : ∀ j : Nat,
    runFrames h "s" (svcAfter j) (List.replicate k ((0 : ℚ), speechFrame)) =
      (svcAfter (j + k), []) := by
  induction k with
  | zero => intro j; simp [runFrames_nil]
  | succ k ih =>
    intro j
    rw [List.replicate_succ, runFrames_cons, speech_step, ih (j + 1)]
    simp only [Option.toList_none, List.nil_append]
    congr 2
    omega

theorem svcInit_eq : svcInit = svcAfter 0 := by decide

theorem silent_step_one {E : Type} (h : Handlers E) :
    processAudioChunk h 0 (svcAfter 50) "s" 50 zeroFrame =
      (svcSilentA, [], none, none) := by
  rw [processAudioChunk]
  have hget : getSession (svcAfter 50) "s" = some (sessAfter 50) := by
    simp [getSession, svcAfter, List.find?]
  rw [hget]
  simp only [svcAfter, vadProcess_first_zero]
  rw [if_neg (by decide)]
  rw [if_neg (by simp [getSilenceDurationMs, sessAfter])]
  simp [setSession, svcSilentA, sessSilentA, sessAfter, zeroFrame_length, Nat.mul_succ]
  simp [vadSilentA]

theorem silent_step_two {E : Type} (h : Handlers E) :
    (processAudioChunk h 0 svcSilentA "s" (258 / 5) zeroFrame).2.2.2 =
      some (bufN 50) := by
  rw [processAudioChunk]
  have hget : getSession svcSilentA "s" = some sessSilentA := by
    simp [getSession, svcSilentA, List.find?]
  rw [hget]
  simp only [svcSilentA, vadProcess_second_zero]
  have hbuf : bufN 50 ≠ [] := bufN_ne_nil 50 (by omega)
  have hA : sessSilentA.audioBuffer = bufN 50 := rfl
  have hC : sessSilentA.config.silenceTimeoutMs = 1500 := rfl
  norm_num [getSilenceDurationMs, hbuf, hA, hC]

/-- C4: feeding a fresh session 50 speech frames of 4096 bytes each
(constant sample 12000, an amplitude whose energy `375/1024` exceeds the
VAD threshold `0.3`) and then silent frames until more than
`silence_timeout_ms` of silence has elapsed dispatches exactly one
utterance to the orchestrator, and the audio handed to the orchestrator
is exactly the concatenation of the 50 speech frames — for every choice
of stage handlers. -/
theorem C4_fifty_frame_utterance {E : Type} (h : Handlers E) :
    (runFrames h "s" svcInit utteranceFeed).2 =
      [(List.replicate 50 speechFrame).flatten] := by
  rw [svcInit_eq, utteranceFeed, runFrames_append]
  rw [runFrames_speech h 50 0, Nat.zero_add]
  simp only
  rw [runFrames_cons, silent_step_one]
  simp only
  rw [runFrames_cons, silent_step_two, runFrames_nil]
  simp only [Option.toList_none, Option.toList_some, List.nil_append,
    List.append_nil]
  rw [bufN]

/-- C2: the source never consults `max_audio_duration_ms`: 235 speech
frames of 4096 bytes grow `audio_buffer` to 962560 bytes, beyond the
960000-byte equivalent of the configured 30000 ms at the service's
16 kHz mono 16-bit format, while no utterance flush is dispatched. -/
theorem C2_buffer_exceeds_max_duration_without_flush {E : Type} (h : Handlers E) :
    ∃ sess : VoiceSession,
      getSession (runFrames h "s" svcInit
          (List.replicate 235 ((0 : ℚ), speechFrame))).1 "s" = some sess ∧
      (runFrames h "s" svcInit (List.replicate 235 ((0 : ℚ), speechFrame))).2 = [] ∧
      sess.audioBuffer.length = 962560 ∧
      ((sess.audioBuffer.length : ℚ)) >
        sess.config.maxAudioDurationMs / 1000 *
          ((svcInit.config.audioSampleRate : ℕ) : ℚ) *
          ((svcInit.config.audioChannels : ℕ) : ℚ) * 2 := by
  rw [svcInit_eq, runFrames_speech h 235 0]
  refine ⟨sessAfter 235, ?_, rfl, ?_, ?_⟩
  · simp [getSession, svcAfter, List.find?]
  · rw [sessAfter]
    simp only [bufN_length]
  · rw [sessAfter]
    simp only [bufN_length]
    show ((4096 * 235 : ℕ) : ℚ) >
      (30000 : ℚ) / 1000 * ((16000 : ℕ) : ℚ) * ((1 : ℕ) : ℚ) * 2
    norm_num

set_option maxRecDepth 8000 in
/-- C1: the code keeps one `VoiceActivityDetector` on the service, not
one per session, and frame processing for one session reads and mutates
energy history deposited by another.  After a single loud frame for
session `"s1"`, a zero frame fed to session `"s2"` is classified as
speech — `"s2"` moves to LISTENING and buffers the silent frame —
whereas the same frame fed to a service in which `"s1"` never spoke
leaves `"s2"` idle with an empty buffer. -/
theorem C1_vad_state_shared_across_sessions :
    (((getSession (processAudioChunk trivHandlers 0
          (processAudioChunk trivHandlers 0 svcTwo "s1" 0 loudFrame2).1
          "s2" 0 silentFrame2).1 "s2").map fun x => x.state) =
        some .listening ∧
      ((getSession (processAudioChunk trivHandlers 0
          (processAudioChunk trivHandlers 0 svcTwo "s1" 0 loudFrame2).1
          "s2" 0 silentFrame2).1 "s2").map fun x => x.audioBuffer) =
        some silentFrame2) ∧
    (((getSession (processAudioChunk trivHandlers 0 svcTwo "s2" 0
          silentFrame2).1 "s2").map fun x => x.state) = some .idle ∧
      ((getSession (processAudioChunk trivHandlers 0 svcTwo "s2" 0
          silentFrame2).1 "s2").map fun x => x.audioBuffer) =
        some ([] : List Nat)) := by
  decide

set_option maxRecDepth 8000 in
/-- C3: `create_session` never checks `max_sessions`: on a registry
already holding `max_sessions` (100) live sessions it still creates and
stores a 101st session (in the default IDLE state and default config)
instead of signalling a capacity error. -/
theorem C3_capacity_never_enforced :
    fullService.sessions.length = fullService.config.maxSessions ∧
    (createSession fullService "rtc_new" 7 "alice").1.sessions.length =
      fullService.config.maxSessions + 1 ∧
    getSession (createSession fullService "rtc_new" 7 "alice").1 "rtc_new" =
      some (createSession fullService "rtc_new" 7 "alice").2 ∧
    (createSession fullService "rtc_new" 7 "alice").2.state = .idle ∧
    (createSession fullService "rtc_new" 7 "alice").2.config = {} := by
  decide

/-- C8 counterexample: after a successful utterance (100 ms), an
utterance whose LLM stage raises after STT succeeded, and a second
successful utterance (100 ms), the recomputed `avg_latency_ms` is
`200/3` — `total_latency_ms` divided by `stt_calls = 3` — and not the
running mean `100` of `total_latency_ms` over the 2 completed
utterances. -/
theorem C8_counterexample :
    latRun1.2.2.2 = none ∧
    latRun2.2.2.2 = some () ∧
    latRun3.2.2.2 = none ∧
    latRun3.1.metrics.ttsCalls = 2 ∧
    latRun3.1.metrics.totalLatencyMs = 200 ∧
    latRun3.1.metrics.avgLatencyMs = 200 / 3 ∧
    latRun3.1.metrics.avgLatencyMs ≠
      latRun3.1.metrics.totalLatencyMs / ((latRun3.1.metrics.ttsCalls : ℕ) : ℚ) := by
  decide

/-- C6: when the STT stage yields an empty or whitespace-only
transcript, `process_audio_stream` terminates with an empty chunk
sequence and no error, leaves the session (including
`transcript_buffer`, `llm_calls` and `tts_calls`) and the pipeline
counters completely unchanged, and the outcome is the same for every
choice of LLM and TTS handlers — neither is invoked. -/
theorem C6_blank_transcript_short_circuit {E : Type} (h : Handlers E)
    (elapsedMs : ℚ) (audio : List Nat) (sess : VoiceSession)
    (stats : PipelineStats) (tr : String)
    (hstt : h.stt audio = .ok tr) (hblank : isBlank tr = true) :
    pipelineRun h elapsedMs audio sess stats = (sess, stats, [], none) ∧
    ∀ h2 : Handlers E, h2.stt audio = h.stt audio →
      pipelineRun h2 elapsedMs audio sess stats = (sess, stats, [], none) := by
  have main : ∀ g : Handlers E, g.stt audio = .ok tr →
      pipelineRun g elapsedMs audio sess stats = (sess, stats, [], none) := by
    intro g hg
    rw [pipelineRun, hg]
    simp [hblank]
  exact ⟨main h hstt, fun h2 hh2 => main h2 (by rw [hh2, hstt])⟩

/-- C6 witness: the whitespace-transcript handlers at a concrete
session. -/
theorem C6_witness :
    pipelineRun blankSttHandlers 5 [1] demoSess {} = (demoSess, {}, [], none) :=
  (C6_blank_transcript_short_circuit blankSttHandlers 5 [1] demoSess {} " "
    rfl (by decide)).1

/-- C10: `process_audio_chunk` for a session id that is not in the
registry returns an empty chunk sequence, raises nothing, dispatches
nothing, and leaves the whole service state (registry, shared VAD,
pipeline counters) untouched. -/
theorem C10_unknown_session_is_noop {E : Type} (h : Handlers E)
    (elapsedMs : ℚ) (s : ServiceState) (sid : String) (now : ℚ)
    (chunk : List Nat) (habs : getSession s sid = none) :
    processAudioChunk h elapsedMs s sid now chunk = (s, [], none, none) := by
  rw [processAudioChunk, habs]

/-- C10 witness: an empty registry and an arbitrary frame. -/
theorem C10_witness :
    processAudioChunk trivHandlers 0 {} "nope" 0 [1, 2] =
      (({} : ServiceState), [], none, none) :=
  C10_unknown_session_is_noop trivHandlers 0 {} "nope" 0 [1, 2] (by decide)

/-- C9: `end_session` returns `true` exactly on the call that finds the
session — which removes it from the registry — and any subsequent call
for the same id returns `false` and leaves the registry unchanged. -/
theorem C9_end_session_idempotent (s : ServiceState) (sid : String) :
    ((getSession s sid).isSome →
      (endSession s sid).2 = true ∧
      getSession (endSession s sid).1 sid = none ∧
      endSession (endSession s sid).1 sid = ((endSession s sid).1, false)) ∧
    ((getSession s sid).isSome = false → endSession s sid = (s, false)) := by
  have hiso : (getSession s sid).isSome =
      (s.sessions.find? (fun p => p.1 = sid)).isSome := by
    rw [getSession]
    cases s.sessions.find? (fun p => p.1 = sid) <;> simp
  have hrm : ∀ l : List (String × VoiceSession),
      (l.filter (fun p => ¬ (p.1 = sid))).find? (fun p => p.1 = sid) = none := by
    intro l
    apply List.find?_eq_none.mpr
    intro x hx
    have hmem := List.of_mem_filter hx
    simpa using hmem
  constructor
  · intro hs
    have hfind : (s.sessions.find? (fun p => p.1 = sid)).isSome := by
      rw [← hiso]; exact hs
    rw [endSession, if_pos hfind]
    refine ⟨rfl, ?_, ?_⟩
    · rw [getSession]
      simp [hrm]
    · rw [endSession]
      simp [hrm]
  · intro hs
    have hfind : ¬ (s.sessions.find? (fun p => p.1 = sid)).isSome = true := by
      rw [← hiso]; simp [hs]
    rw [endSession, if_neg hfind]

/-- C9 witness: ending the one session of a fresh service succeeds,
removes it, and a second call returns `false`. -/
theorem C9_witness :
    (endSession svcInit "s").2 = true ∧
    getSession (endSession svcInit "s").1 "s" = none ∧
    endSession (endSession svcInit "s").1 "s" =
      ((endSession svcInit "s").1, false) :=
  (C9_end_session_idempotent svcInit "s").1 (by decide)

/-- C7 counterexample: for a reachable detector state whose smoothing
window is non-empty (one loud frame was processed), `process` on a
frame shorter than 2 bytes returns the window average `125/256`, not
energy `0.0`. -/
theorem C7_counterexample :
    ([] : List Nat).length < 2 ∧
    (vadProcess (vadProcess {} 0 loudFrame2).1 0 []).2.2 = 125 / 256 ∧
    (vadProcess (vadProcess {} 0 loudFrame2).1 0 []).2.2 ≠ 0 := by
  decide

/-- C7 as amended: for every detector state, a frame shorter than
2 bytes or of odd byte length has computed energy `0.0` (the value
pushed into the smoothing window) and `process` does not raise; the
energy value `process` returns is the smoothing-window average, which
is `0.0` whenever the window was empty beforehand. -/
theorem C7_amended_short_frames (st : VADState) (now : ℚ)
    (frame : List Nat)
    (hshort : frame.length < 2 ∨ frame.length % 2 = 1) :
    calculateEnergy frame = 0 ∧
    (st.energyHistory = [] → (vadProcess st now frame).2.2 = 0) := by
  have henergy : calculateEnergy frame = 0 := by
    rw [calculateEnergy]
    by_cases h2 : frame.length < 2
    · rw [if_pos h2]
    · rw [if_neg h2, if_pos (hshort.resolve_left h2)]
  refine ⟨henergy, fun hemp => ?_⟩
  rw [vadProcess, henergy, hemp]
  simp
  by_cases h0 : st.smoothingFrames = 0 <;> simp [h0]

/-- C7 amended witness: a fresh detector and a 1-byte frame. -/
theorem C7_amended_witness :
    calculateEnergy [5] = 0 ∧ (vadProcess {} 0 [5]).2.2 = 0 :=
  ⟨(C7_amended_short_frames {} 0 [5] (by decide)).1,
   (C7_amended_short_frames {} 0 [5] (by decide)).2 rfl⟩

/-- C8 as amended: on a fully successful utterance the pipeline adds
the elapsed latency to `total_latency_ms` and recomputes
`avg_latency_ms` as `total_latency_ms / stt_calls` — `stt_calls`
counts every utterance whose STT produced a non-blank transcript,
including utterances that later failed at the LLM or TTS stage, so the
quotient is the running mean over completed utterances only when no
such failure has occurred. -/
theorem C8_amended_avg_latency {E : Type} (h : Handlers E)
    (elapsedMs : ℚ) (audio : List Nat) (sess : VoiceSession)
    (stats : PipelineStats) (tr resp : String) (chunks : List (List Nat))
    (hstt : h.stt audio = .ok tr) (hblank : isBlank tr = false)
    (hllm : h.llm tr sess.sessionId = .ok resp)
    (htts : h.tts resp = (chunks, none)) :
    (pipelineRun h elapsedMs audio sess stats).1.metrics.sttCalls =
      sess.metrics.sttCalls + 1 ∧
    (pipelineRun h elapsedMs audio sess stats).1.metrics.totalLatencyMs =
      sess.metrics.totalLatencyMs + elapsedMs ∧
    (pipelineRun h elapsedMs audio sess stats).1.metrics.avgLatencyMs =
      (sess.metrics.totalLatencyMs + elapsedMs) /
        (((sess.metrics.sttCalls + 1 : ℕ)) : ℚ) := by
  rw [pipelineRun, hstt]
  simp [hblank, hllm, htts]

/-- C8 amended witness: the first latency run. -/
theorem C8_amended_witness :
    latRun1.1.metrics.sttCalls = demoSess.metrics.sttCalls + 1 ∧
    latRun1.1.metrics.totalLatencyMs = demoSess.metrics.totalLatencyMs + 100 ∧
    latRun1.1.metrics.avgLatencyMs =
      (demoSess.metrics.totalLatencyMs + 100) /
        (((demoSess.metrics.sttCalls + 1 : ℕ)) : ℚ) :=
  C8_amended_avg_latency okHandlers 100 [1] demoSess {} "hello" "resp" [[9]]
    rfl (by decide) rfl rfl

/-- C5: when a dispatched utterance's STT, LLM or TTS handler raises,
the error propagates out of `process_audio_chunk` with the session
state set to ERROR, the counter of the failed stage and of every later
stage not incremented, and the session still present in the registry
and retrievable via `get_session`. -/
theorem C5_stage_failure_semantics {E : Type} (h : Handlers E)
    (elapsedMs now : ℚ) (s : ServiceState) (sid : String)
    (sess : VoiceSession) (chunk : List Nat)
    (hget : getSession s sid = some sess)
    (hnospeech : (vadProcess s.vad now chunk).2.1 = false)
    (hsil : getSilenceDurationMs (vadProcess s.vad now chunk).1 now ≥
      sess.config.silenceTimeoutMs)
    (hbuf : sess.audioBuffer ≠ []) :
    (∀ e : E, h.stt sess.audioBuffer = .error e →
      (processAudioChunk h elapsedMs s sid now chunk).2.2.1 = some e ∧
      ∃ x, getSession (processAudioChunk h elapsedMs s sid now chunk).1 sid =
          some x ∧
        x.state = .error ∧
        x.metrics.sttCalls = sess.metrics.sttCalls ∧
        x.metrics.llmCalls = sess.metrics.llmCalls ∧
        x.metrics.ttsCalls = sess.metrics.ttsCalls) ∧
    (∀ tr e, h.stt sess.audioBuffer = .ok tr → isBlank tr = false →
      h.llm tr sess.sessionId = .error e →
      (processAudioChunk h elapsedMs s sid now chunk).2.2.1 = some e ∧
      ∃ x, getSession (processAudioChunk h elapsedMs s sid now chunk).1 sid =
          some x ∧
        x.state = .error ∧
        x.metrics.llmCalls = sess.metrics.llmCalls ∧
        x.metrics.ttsCalls = sess.metrics.ttsCalls) ∧
    (∀ tr resp chunks e, h.stt sess.audioBuffer = .ok tr →
      isBlank tr = false → h.llm tr sess.sessionId = .ok resp →
      h.tts resp = (chunks, some e) →
      (processAudioChunk h elapsedMs s sid now chunk).2.2.1 = some e ∧
      ∃ x, getSession (processAudioChunk h elapsedMs s sid now chunk).1 sid =
          some x ∧
        x.state = .error ∧
        x.metrics.ttsCalls = sess.metrics.ttsCalls) := by
  have hred : processAudioChunk h elapsedMs s sid now chunk =
      (let r := pipelineRun h elapsedMs sess.audioBuffer
          { sess with
            lastActivity := now,
            metrics := { sess.metrics with
              totalAudioBytes := sess.metrics.totalAudioBytes + chunk.length },
            state := .processing, audioBuffer := [] }
          s.pipelineStats
       (⟨setSession s.sessions sid
            (if r.2.2.2.isSome then r.1 else { r.1 with state := .idle }),
          (vadProcess s.vad now chunk).1, r.2.1, s.config⟩,
        r.2.2.1, r.2.2.2, some sess.audioBuffer)) := by
    rw [processAudioChunk, hget]
    simp only [hnospeech, Bool.false_eq_true, if_false]
    rw [if_pos ⟨hsil, hbuf⟩]
  refine ⟨?_, ?_, ?_⟩
  · intro e hstt
    rw [hred]
    simp only [pipelineRun, hstt, Option.isSome_some, if_true]
    exact ⟨trivial, _, getSession_setSession _ _ _ _ _ _, rfl, rfl, rfl, rfl⟩
  · intro tr e hstt hnb hllm
    rw [hred]
    simp only [pipelineRun, hstt, hnb, Bool.false_eq_true, if_false, hllm,
      Option.isSome_some, if_true]
    exact ⟨trivial, _, getSession_setSession _ _ _ _ _ _, rfl, rfl, rfl⟩
  · intro tr resp chunks e hstt hnb hllm htts
    rw [hred]
    simp only [pipelineRun, hstt, hnb, Bool.false_eq_true, if_false, hllm,
      htts, Option.isSome_some, if_true]
    exact ⟨trivial, _, getSession_setSession _ _ _ _ _ _, rfl, rfl⟩

/-- C5 witness: a buffered session whose silence timeout fires at a
frame while the LLM handler raises. -/
theorem C5_witness :
    (processAudioChunk llmFailHandlers 0 svcReady "s" 10 []).2.2.1 = some () ∧
    ∃ x, getSession (processAudioChunk llmFailHandlers 0 svcReady "s" 10 []).1
        "s" = some x ∧
      x.state = .error ∧
      x.metrics.llmCalls =
        ({ demoSess with audioBuffer := [1, 2] } : VoiceSession).metrics.llmCalls ∧
      x.metrics.ttsCalls =
        ({ demoSess with audioBuffer := [1, 2] } : VoiceSession).metrics.ttsCalls :=
  (C5_stage_failure_semantics llmFailHandlers 0 10 svcReady "s"
      { demoSess with audioBuffer := [1, 2] } [] (by decide) (by decide)
      (by decide) (by decide)).2.1 "hello" () rfl (by decide) rfl
